import Mathlib

/-!
# ESP8266_BME680: the settings record, its store budget and the text templates

A shallow embedding of `esp8266_ap.h`: the compile-time constants, the
`_settings` record with its declared field widths, the `factoryDefaults`
value, the `channels` table and the `printf`-style templates
(`JSON_SETTINGS`, `INDEX_HTML`, `STATUS_HTML`, `SENSOR_HTML`), followed by
the properties established about them.

Machine integers are `Nat`/`Int`; a `char[n]` field holds the text before
its terminator as a `String`, and its declared width lives in
`settingsDecl`.
-/

set_option maxRecDepth 100000

namespace ESP8266

/-! ## Constants -/

/-- `#define CH_COUNT 14`. -/
def CH_COUNT : Nat := 14

/-- `#define HTML_PAGE_BUFFER_SIZE 12000`, the size of `char html[]`. -/
def HTML_PAGE_BUFFER_SIZE : Nat := 12000

/-- `const byte NON_FACTORY = 15;`. -/
def NON_FACTORY : Nat := 15

/-- `const int ALLOCATED_EEPROM = 1024;`. -/
def ALLOCATED_EEPROM : Nat := 1024

/-! ## The record -/

/-- The element types that occur in `struct _settings`. -/
inductive CType
  | int
  | byte
  | boolean
  | char
  deriving DecidableEq, Repr

/-- Width in bytes of one element of a type on the ESP8266 (32-bit `int`,
`byte` and `boolean` are `uint8_t`). -/
def CType.width : CType → Nat
  | .int => 4
  | .byte => 1
  | .boolean => 1
  | .char => 1

/-- One member declaration of a struct: `ty name[count];` (`count = 1` for a
scalar member). -/
structure FieldDecl where
  name : String
  ty : CType
  count : Nat
  deriving DecidableEq, Repr

/-- The member declarations of `struct _settings`, in declaration order. -/
def settingsDecl : List FieldDecl :=
  [ ⟨"serverPort", .int, 1⟩,
    ⟨"accessPointSSID", .char, 20⟩,
    ⟨"accessPointIP", .byte, 4⟩,
    ⟨"accessPointMode", .boolean, 1⟩,
    ⟨"accessPointPassword", .char, 20⟩,
    ⟨"accessPointChannel", .byte, 1⟩,
    ⟨"stationMode", .boolean, 1⟩,
    ⟨"stationSSID", .char, 50⟩,
    ⟨"stationAccessPointPassword", .char, 20⟩,
    ⟨"stationRequireAuthentication", .boolean, 1⟩,
    ⟨"stationUsername", .char, 20⟩,
    ⟨"stationPassword", .char, 20⟩,
    ⟨"sensorSampleInterval", .int, 1⟩,
    ⟨"publishingPolicy", .char, 6⟩,
    ⟨"publishingURL", .char, 100⟩,
    ⟨"publishingUsername", .char, 20⟩,
    ⟨"publishingPassword", .char, 20⟩,
    ⟨"useNTP", .boolean, 1⟩,
    ⟨"NTPPoolURL", .char, 50⟩,
    ⟨"NTPOffset", .int, 1⟩,
    ⟨"hostName", .char, 20⟩ ]

/-- The values of a `struct _settings`. -/
structure _settings where
  serverPort : Int
  accessPointSSID : String
  accessPointIP : List Nat
  accessPointMode : Bool
  accessPointPassword : String
  accessPointChannel : Nat
  stationMode : Bool
  stationSSID : String
  stationAccessPointPassword : String
  stationRequireAuthentication : Bool
  stationUsername : String
  stationPassword : String
  sensorSampleInterval : Int
  publishingPolicy : String
  publishingURL : String
  publishingUsername : String
  publishingPassword : String
  useNTP : Bool
  NTPPoolURL : String
  NTPOffset : Int
  hostName : String
  deriving DecidableEq, Repr

/-- The initialiser of `_settings factoryDefaults`. -/
def factoryDefaults : _settings :=
  { serverPort := 80
    accessPointSSID := "ESP8266"
    accessPointIP := [192, 168, 4, 1]
    accessPointMode := true
    accessPointPassword := "ESP8266Test"
    accessPointChannel := 0
    stationMode := false
    stationSSID := ""
    stationAccessPointPassword := ""
    stationRequireAuthentication := true
    stationUsername := "admin"
    stationPassword := "admin"
    sensorSampleInterval := 10
    publishingPolicy := "Poll"
    publishingURL := ""
    publishingUsername := ""
    publishingPassword := ""
    useNTP := true
    NTPPoolURL := "nl.pool.ntp.org"
    NTPOffset := 3600
    hostName := "NodeMCU" }

/-- The initialiser of `char channels[CH_COUNT][14]`. -/
def channels : List String :=
  ["1 - 2412 MHz", "2 - 2417 MHz", "3 - 2422 MHz", "4 - 2427 MHz", "5 - 2432 MHz",
   "6 - 2437 MHz", "7 - 2442 MHz", "8 - 2447 MHz", "9 - 2452 MHz", "10 - 2457 MHz",
   "11 - 2462 MHz", "12 - 2467 MHz", "13 - 2472 MHz", "14 - 2484 MHz"]

/-- `char pollURL[] PROGMEM = "/sensor/read";`. -/
def pollURL : String := "/sensor/read"

/-- The text members of a record paired with the name of the member they
are stored in. -/
def _settings.textFields (r : _settings) : List (String × String) :=
  [ ("accessPointSSID", r.accessPointSSID),
    ("accessPointPassword", r.accessPointPassword),
    ("stationSSID", r.stationSSID),
    ("stationAccessPointPassword", r.stationAccessPointPassword),
    ("stationUsername", r.stationUsername),
    ("stationPassword", r.stationPassword),
    ("publishingPolicy", r.publishingPolicy),
    ("publishingURL", r.publishingURL),
    ("publishingUsername", r.publishingUsername),
    ("publishingPassword", r.publishingPassword),
    ("NTPPoolURL", r.NTPPoolURL),
    ("hostName", r.hostName) ]

/-- Declared element count of the member called `name` (0 when there is no
such member). -/
def capacityOf (name : String) : Nat :=
  match settingsDecl.find? (fun d => d.name == name) with
  | some d => d.count
  | none => 0

/-- Sum of the member widths of a struct, without padding. -/
def packedSize (decl : List FieldDecl) : Nat :=
  (decl.map (fun d => d.ty.width * d.count)).sum

/-- Number of `int` members of a struct. -/
def intCount (decl : List FieldDecl) : Nat :=
  (decl.filter (fun d => d.ty == CType.int)).length

/-- Size of the byte image of a struct when `pad i` bytes are inserted
before its `i`-th `int` member and `tailPad` bytes at its end. -/
def imageSizeWith (pad : Nat → Nat) (tailPad : Nat) (decl : List FieldDecl) : Nat :=
  packedSize decl + ((List.range (intCount decl)).map pad).sum + tailPad

/-- Offset reached after laying out the members from offset `off`, each
`int` member aligned to `align` bytes. -/
def layoutFrom (align : Nat) : Nat → List FieldDecl → Nat
  | off, [] => off
  | off, d :: ds =>
    let start := if d.ty = CType.int then (off + align - 1) / align * align else off
    layoutFrom align (start + d.ty.width * d.count) ds

/-- The `sizeof` of a struct whose `int` members are aligned to `align`
bytes: the end offset rounded up to the alignment. -/
def sizeofWith (align : Nat) (decl : List FieldDecl) : Nat :=
  (layoutFrom align 0 decl + align - 1) / align * align

/-- The alignment padding the ESP8266 ABI inserts before the `i`-th `int`
member of `struct _settings` (offsets 0, 162 and 365 rounded up to a
multiple of 4). -/
def xtensaPad (i : Nat) : Nat :=
  if i = 1 then 2 else if i = 2 then 3 else 0

/-- The `char` members of `struct _settings` with their declared widths. -/
def textCapacities : List (String × Nat) :=
  (settingsDecl.filter (fun d => d.ty == CType.char)).map (fun d => (d.name, d.count))

/-- Modelled from the spec: the guard of `load()`, which is not part of the
header. It reads one sentinel byte and takes the store to be in the current
format exactly when that byte equals the version marker `NON_FACTORY`. -/
def sentinelIsCurrent (b : Nat) : Bool :=
  b == NON_FACTORY


/-! ## The templates

Adjacent C string literals are concatenated by the compiler;
`concatLiterals` does the same here, one list entry per source literal. A
brace is written `\x7b` / `\x7d`. -/

/-- The text of a sequence of adjacent string literals. -/
def concatLiterals (pieces : List String) : String :=
  String.mk (pieces.foldr (fun p acc => p.toList ++ acc) [])

/-- `const char JSON_SETTINGS[] PROGMEM`, the template of the settings payload. -/
def JSON_SETTINGS : String :=
  concatLiterals [
    "\x7b\n",
    " \"accessPointMode\": %s,\n",
    " \"accessPointSSID\": \"%s\",\n",
    " \"accessPointPassword\": \"%s\",\n",
    " \"accessPointIPAddress\": \"%s\",\n",
    " \"stationMode\": %s,\n",
    " %s,\n",
    " \"stationPassword\": \"%s\",\n",
    " \"requireAuthentication\": %s,\n",
    " \"authenticationUsername\": \"%s\",\n",
    " \"authenticationPassword\": \"%s\",\n",
    " \"sampleInterval\": %d,\n",
    " \"publishURL\": \"%s\",\n",
    " \"publishingUsername\": \"%s\",\n",
    " \"publishingPassword\": \"%s\",\n",
    " \"pollURL\": \"%s\",\n",
    " \"publishingPolicy\":\x7b\"Push\": %s, \"Poll\": %s\x7d,\n",
    " \"stationHostname\": \"%s\",\n",
    " %s,\n",
    " \"useNTP\": %s,\n",
    " \"NTPOffset\": %d,\n",
    " \"NTPPoolURL\": \"%s\",\n",
    " \"serverPort\": %d\n",
    "\x7d\n" ]

/-- `const char INDEX_HTML[] PROGMEM`, the set-up page with the settings form. -/
def INDEX_HTML : String :=
  concatLiterals [
    "<!DOCTYPE HTML>\n",
    "<HTML>\n",
    "  <HEAD>\n",
    "   <TITLE>NodedMCU Configuration</TITLE>\n",
    "   <style>%s</style>\n",
    "   <script defer=\"defer\" src=\"/nodemcu.js\"></script>\n",
    " <BODY onload=\"getSettings('/settings');\">\n",
    "   <div class=\"banner\">\n",
    "     <h1>MCS - NodeMCU BME680 setup</h1>\n",
    "   </div>\n",
    "   <div class=\"tab\">\n",
    "     <button class=\"tablinks\" onclick=\"openConfigSheet(event, 'AP')\">Access Point</button>\n",
    "     <button class=\"tablinks\" onclick=\"openConfigSheet(event, 'STA')\">WiFi station</button>\n",
    "     <button class=\"tablinks\" onclick=\"openConfigSheet(event, 'Server')\">Web server</button>\n",
    "     <button class=\"tablinks\" onclick=\"openConfigSheet(event, 'BME680')\">BME680 Sensor</button>\n",
    "     <button class=\"tablinks\" onclick=\"openConfigSheet(event, 'Status')\">Status</button>\n",
    "   </div>\n",
    "   <FORM action=\"/\" method=\"POST\" >\n",
    "     <div id=\"AP\" class=\"tabcontent\">\n",
    "       <h3>Access Point configuration</h3>\n",
    "       <table class=\"table\">\n",
    "       <tr>\n",
    "         <td colspan=\"2\">\n",
    "           <input id=\"accessPointMode\" name=\"accessPointMode\" type=\"checkbox\">Operate as WiFi Access Point\n",
    "         </td>\n",
    "       </tr>\n",
    "       <tr>\n",
    "         <td>Access Point SSID:</td>\n",
    "         <td>\n",
    "           <input id=\"accessPointSSID\" name=\"accessPointSSID\" type=\"text\">\n",
    "         </td>\n",
    "       </tr>\n",
    "       <tr>\n",
    "         <td>Channel:</td>\n",
    "         <td>\n",
    "           <select id=\"channelList\" name=\"channelList\" width=\"200px\"></select>\n",
    "       </tr>\n",
    "       <tr>\n",
    "         <td>Access Point password:</td>\n",
    "         <td>\n",
    "           <input id=\"accessPointPassword\" name=\"accessPointPassword\" type=\"password\">\n",
    "         </td>\n",
    "       </tr>\n",
    "       <tr>\n",
    "         <td>IP Address:</td>\n",
    "         <td>\n",
    "           <input id=\"accessPointIPAddress\" name=\"accessPointIPAddress\" type=\"text\">\n",
    "       </tr>\n",
    "       </table>\n",
    "     </div>\n",
    "     <div id=\"STA\" class=\"tabcontent\">\n",
    "       <h3>WiFi Station configuration</h3>\n",
    "       <table class=\"table\">\n",
    "       <tr>\n",
    "         <td colspan=\"2\">\n",
    "           <input id=\"stationMode\" name=\"stationMode\" type=\"checkbox\">Operate as WiFi Station\n",
    "         </td>\n",
    "       </tr>\n",
    "       <tr>\n",
    "         <td>Available Access Points:</td>\n",
    "         <td>\n",
    "           <select id=\"accessPointList\" name=\"accessPointList\" size=\"10\" width=\"200px\"></select>\n",
    "       </tr>\n",
    "        <tr>\n",
    "          <td>Station hostname:</td>\n",
    "          <td>\n",
    "            <input id=\"stationHostname\" name=\"stationHostname\" type=\"text\">\n",
    "          </td>\n",
    "        </tr>\n",
    "       <tr>\n",
    "         <td colspan=\"2\"><input name=\"scan\" type=\"button\" value=\"Scan\" onclick=\"getSettings('/aplist');\"></td>\n",
    "       </tr>\n",
    "       <tr>\n",
    "         <td>Password:</td>\n",
    "         <td>\n",
    "           <input id=\"stationPassword\" name=\"stationPassword\" type=\"password\">\n",
    "         </td>\n",
    "       </tr>\n",
    "       <tr>\n",
    "         <td colspan=\"2\">\n",
    "           <input id=\"useNTP\" name=\"useNTP\" type=\"checkbox\">Use NTP time synchronisation.\n",
    "         </td>\n",
    "       </tr>\n",
    "        <tr>\n",
    "          <td>Offset:</td>\n",
    "          <td>\n",
    "            <input id=\"NTPOffset\" name=\"NTPOffset\" type=\"text\"> Seconds.\n",
    "          </td>\n",
    "        </tr>\n",
    "        <tr>\n",
    "          <td>NTP pool URL:</td>\n",
    "          <td>\n",
    "            <input id=\"NTPPoolURL\" name=\"NTPPoolURL\" type=\"text\">\n",
    "          </td>\n",
    "        </tr>\n",
    "       </table>\n",
    "     </div>\n",
    "     <div id=\"Server\" class=\"tabcontent\">\n",
    "       <h3>Web server</h3>\n",
    "       <table class=\"table\">\n",
    "       <tr>\n",
    "         <td colspan=\"2\">\n",
    "           <input id=\"requireAuthentication\" name=\"requireAuthentication\" type=\"checkbox\">Require authentication\n",
    "         </td>\n",
    "       </tr>\n",
    "       <tr>\n",
    "         <td>Username:</td>\n",
    "         <td>\n",
    "           <input id=\"authenticationUsername\" name=\"authenticationUsername\" type=\"text\">\n",
    "         </td>\n",
    "       </tr>\n",
    "       <tr>\n",
    "         <td>Password:</td>\n",
    "         <td>\n",
    "           <input id=\"authenticationPassword\" name=\"authenticationPassword\" type=\"password\">\n",
    "         </td>\n",
    "       </tr>\n",
    "       <tr>\n",
    "         <td>Port:</td>\n",
    "         <td>\n",
    "           <input id=\"serverPort\" name=\"serverPort\" type=\"text\">\n",
    "         </td>\n",
    "       </tr>\n",
    "       </table>\n",
    "     </div>    \n",
    "     <div id=\"BME680\" class=\"tabcontent\">\n",
    "       <h3>BME680 Sensor configuration</h3>\n",
    "       <table class=\"table\">\n",
    "       <tr>\n",
    "         <td>Sample interval:</td>\n",
    "         <td>\n",
    "           <input id=\"sampleInterval\" name=\"sampleInterval\" type=\"text\">Seconds\n",
    "         </td>\n",
    "       </tr>\n",
    "       <tr>\n",
    "         <td colspan=\"2\">Measurements publishing policy:</td>\n",
    "       </tr>\n",
    "       <tr>\n",
    "         <td>\n",
    "           <input name=\"publishingPolicy\" type=\"radio\" value=\"Push\">Push\n",
    "         </td>\n",
    "         <td>\n",
    "           <table>\n",
    "             <tr>\n",
    "               <td>POST to:</td>\n",
    "               <td>\n",
    "                 <input id=\"publishURL\" name=\"publishURL\" type=\"text\">\n",
    "               </td>\n",
    "             </tr>\n",
    "             <tr>\n",
    "               <td>Username:</td>\n",
    "               <td>\n",
    "                 <input id=\"publishingUsername\" name=\"publishingUsername\" type=\"text\">\n",
    "               </td>\n",
    "             </tr>\n",
    "             <tr>\n",
    "               <td>Password:</td>\n",
    "               <td>\n",
    "                 <input id=\"publishingPassword\" name=\"publishingPassword\" type=\"password\">\n",
    "               </td>\n",
    "             </tr>\n",
    "           </table>\n",
    "         </td>\n",
    "       </tr>\n",
    "       <tr>\n",
    "         <td>\n",
    "           <input name=\"publishingPolicy\" type=\"radio\" value=\"Poll\">Poll\n",
    "         </td>\n",
    "         <td>\n",
    "           <table>\n",
    "             <tr>\n",
    "               <td>GET from:</td>\n",
    "               <td>\n",
    "                 <input id=\"pollURL\" name=\"pollURL\" type=\"text\" readonly >\n",
    "               </td>\n",
    "             </tr>\n",
    "           </table>\n",
    "         </td>\n",
    "       </tr>\n",
    "       </table>\n",
    "     </div>\n",
    "     <div id=\"Status\" class=\"tabcontent\">\n",
    "       <h3>Status information</h3>\n",
    "       <div id=\"status\" height=\"200px\" width=\"200px\">\n",
    "       </div>\n",
    "     </div>\n",
    "     <input type=\"submit\" value=\"Submit\"> <input type=\"button\" value=\"Reset\" onclick=\"getSettings('/settings');\">\n",
    "   </FORM>\n",
    " </BODY>\n",
    "</HTML>\n" ]

/-- `char STATUS_HTML[] PROGMEM`, the template of the status fragment. -/
def STATUS_HTML : String :=
  concatLiterals [
    "<table>\n",
    " <tr>\n",
    "   <td>Up-time:</td>\n",
    "   <td>%d days %d hours %d minutes %d seconds</td>\n",
    " <tr>\n",
    " <tr>\n",
    "   <td>System time:</td>\n",
    "   <td>%s</td>\n",
    " <tr>\n",
    " <tr>\n",
    "   <td>Last measurment:</td>\n",
    "   <td>%s</td>\n",
    " <tr>\n",
    " <tr>\n",
    "   <td>Node name:</td>\n",
    "   <td>%s</td>\n",
    " <tr>\n",
    " <tr>\n",
    "   <td>IP address:</td>\n",
    "   <td>%s</td>\n",
    " <tr>\n",
    " <tr>\n",
    "   <td>Temperature:</td>\n",
    "   <td>%f &#176;C</td>\n",
    " <tr>\n",
    " <tr>\n",
    "   <td>Humity</td>\n",
    "   <td>%f &#37;</td>\n",
    " <tr>\n",
    " <tr>\n",
    "   <td>Air pressure:</td>\n",
    "   <td>%f hPa</td>\n",
    " <tr>\n",
    " <tr>\n",
    "   <td>VOC</td>\n",
    "   <td>%f k&#937;</td>\n",
    " <tr>\n",
    "</table>\n" ]

/-- `const char SENSOR_HTML[] PROGMEM`, the template of the telemetry payload. -/
def SENSOR_HTML : String :=
  concatLiterals [
    "\x7b\"stationName\":\"%s\", \"timestamp\":%d, \"temperature\":%f, \"humidity\":%f, \"air-pressure\":%f, \"voc\":%f, \"resultCode\": %d, \"resultText\", \"%s\"\x7d" ]

/-! ## Filling a template

`sprintf_P(html, TEMPLATE, ...)` copies the template and replaces each
conversion by the text of the next argument. The templates use `%s`, `%d`
and `%f` only. -/

/-- The conversions that occur in the templates. -/
inductive Conv
  | s
  | d
  | f
  deriving DecidableEq, Repr

/-- A piece of a template: literal text or a conversion. -/
inductive Seg
  | lit (text : List Char)
  | slot (c : Conv)
  deriving DecidableEq, Repr

/-- An argument of `sprintf`: a C string, an `int`, or a `double` given by
the decimal text `%f` prints for it (floating point itself is not
modelled). -/
inductive Arg
  | str (v : String)
  | int (n : Int)
  | flt (text : String)
  deriving DecidableEq, Repr

/-- The conversion named by the character after a `%`. -/
def convOf (k : Char) : Option Conv :=
  if k = 's' then some Conv.s
  else if k = 'd' then some Conv.d
  else if k = 'f' then some Conv.f
  else none

/-- Put one literal character in front of a list of pieces. -/
def pushLit (c : Char) : List Seg → List Seg
  | Seg.lit cs :: segs => Seg.lit (c :: cs) :: segs
  | segs => Seg.lit [c] :: segs

/-- Split a template into literal text and conversions. A `%` that is not
followed by `s`, `d` or `f` is kept as text (the templates have none). -/
def parseFormat : List Char → List Seg
  | [] => []
  | [c] => [Seg.lit [c]]
  | c :: k :: rest =>
    if c = '%' then
      match convOf k with
      | some cv => Seg.slot cv :: parseFormat rest
      | none => pushLit c (parseFormat (k :: rest))
    else pushLit c (parseFormat (k :: rest))

/-- The text a conversion produces for an argument. -/
def Arg.text : Arg → List Char
  | Arg.str v => v.toList
  | Arg.int n => (toString n).toList
  | Arg.flt t => t.toList

/-- The conversion an argument is meant for. -/
def Arg.conv : Arg → Conv
  | Arg.str _ => Conv.s
  | Arg.int _ => Conv.d
  | Arg.flt _ => Conv.f

/-- Fill the conversions of a parsed template from left to right. `none`
when an argument is missing or of the wrong type (undefined behaviour in
C); surplus arguments are ignored. -/
def fill : List Seg → List Arg → Option (List Char)
  | [], _ => some []
  | Seg.lit cs :: segs, args => (fill segs args).map (fun out => cs ++ out)
  | Seg.slot _ :: _, [] => none
  | Seg.slot c :: segs, a :: args =>
    if a.conv = c then (fill segs args).map (fun out => a.text ++ out) else none

/-- The text `sprintf` writes for a template and its arguments. -/
def sprintf (template : String) (args : List Arg) : Option (List Char) :=
  fill (parseFormat template.toList) args

/-- The conversions of a parsed template, in order. -/
def slotKinds : List Seg → List Conv
  | [] => []
  | Seg.lit _ :: segs => slotKinds segs
  | Seg.slot c :: segs => c :: slotKinds segs

/-! ## Rendering the settings and the status -/

/-- A boolean as the word `true` or `false`. -/
def boolWord (b : Bool) : String :=
  if b then "true" else "false"

/-- Modelled from the spec: the dotted-quad text of the IP bytes, which the
caller of the template computes (not part of the header). -/
def dottedQuad (ip : List Nat) : String :=
  String.intercalate "." (ip.map toString)

/-- Modelled from the spec: the argument list of the call that fills
`JSON_SETTINGS` (the call is not part of the header). Booleans are the
words true/false, the Push and Poll slots compare the stored
`publishingPolicy` with that literal, the poll URL is the fixed `pollURL`,
and `frag1`, `frag2` are the two caller-supplied raw fragments. -/
def settingsArgs (r : _settings) (frag1 frag2 : String) : List Arg :=
  [ Arg.str (boolWord r.accessPointMode),
    Arg.str r.accessPointSSID,
    Arg.str r.accessPointPassword,
    Arg.str (dottedQuad r.accessPointIP),
    Arg.str (boolWord r.stationMode),
    Arg.str frag1,
    Arg.str r.stationAccessPointPassword,
    Arg.str (boolWord r.stationRequireAuthentication),
    Arg.str r.stationUsername,
    Arg.str r.stationPassword,
    Arg.int r.sensorSampleInterval,
    Arg.str r.publishingURL,
    Arg.str r.publishingUsername,
    Arg.str r.publishingPassword,
    Arg.str pollURL,
    Arg.str (boolWord (r.publishingPolicy == "Push")),
    Arg.str (boolWord (r.publishingPolicy == "Poll")),
    Arg.str r.hostName,
    Arg.str frag2,
    Arg.str (boolWord r.useNTP),
    Arg.int r.NTPOffset,
    Arg.str r.NTPPoolURL,
    Arg.int r.serverPort ]

/-- Modelled from the spec: the settings payload, `JSON_SETTINGS` filled
with `settingsArgs`. -/
def renderSettings (r : _settings) (frag1 frag2 : String) : Option (List Char) :=
  sprintf JSON_SETTINGS (settingsArgs r frag1 frag2)

/-- Days, hours, minutes and seconds of an up-time. -/
structure Uptime where
  days : Nat
  hours : Nat
  minutes : Nat
  seconds : Nat
  deriving DecidableEq, Repr

/-- Modelled from the spec: the decomposition of the seconds-since-boot
counter, computed by the caller of `STATUS_HTML` (not part of the header):
`days = s/86400`, `hours = (s%86400)/3600`, `minutes = (s%3600)/60`,
`seconds = s%60`. -/
def uptimeOf (s : Nat) : Uptime :=
  { days := s / 86400
    hours := (s % 86400) / 3600
    minutes := (s % 3600) / 60
    seconds := s % 60 }

/-- Modelled from the spec: the argument list of the call that fills
`STATUS_HTML`: the four up-time numbers, then system time, time of the last
measurement, node name and IP address, then the four readings. -/
def statusArgs (u : Uptime) (sysTime lastTime node ip temp hum pres voc : String) :
    List Arg :=
  [ Arg.int u.days, Arg.int u.hours, Arg.int u.minutes, Arg.int u.seconds,
    Arg.str sysTime, Arg.str lastTime, Arg.str node, Arg.str ip,
    Arg.flt temp, Arg.flt hum, Arg.flt pres, Arg.flt voc ]

/-- The up-time line as the status fragment shows it. -/
def uptimeText (u : Uptime) : List Char :=
  (toString u.days).toList ++ " days ".toList ++ (toString u.hours).toList ++
    " hours ".toList ++ (toString u.minutes).toList ++ " minutes ".toList ++
    (toString u.seconds).toList ++ " seconds".toList

/-- A text field of a record is within the bound of its member. -/
def fieldWithin (p : String × String) : Prop :=
  p.2.length < capacityOf p.1

/-- A value of a 32-bit signed `int`. -/
def isInt32 (n : Int) : Prop :=
  -2147483648 ≤ n ∧ n ≤ 2147483647

/-- The inputs of the settings render are bounded: every text member within
its declared width, every `int` member a 32-bit signed value, and the IP
shown as a dotted quad of at most 15 characters. -/
structure _settings.Bounded (r : _settings) : Prop where
  text : ∀ p ∈ r.textFields, fieldWithin p
  serverPort : isInt32 r.serverPort
  sensorSampleInterval : isInt32 r.sensorSampleInterval
  NTPOffset : isInt32 r.NTPOffset
  ip : (dottedQuad r.accessPointIP).length ≤ 15

/-- The pieces of `JSON_SETTINGS`: literal text and conversions in order. -/
def settingsSegs : List Seg :=
  [ Seg.lit "\x7b\n \"accessPointMode\": ".toList,
    Seg.slot Conv.s,
    Seg.lit ",\n \"accessPointSSID\": \"".toList,
    Seg.slot Conv.s,
    Seg.lit "\",\n \"accessPointPassword\": \"".toList,
    Seg.slot Conv.s,
    Seg.lit "\",\n \"accessPointIPAddress\": \"".toList,
    Seg.slot Conv.s,
    Seg.lit "\",\n \"stationMode\": ".toList,
    Seg.slot Conv.s,
    Seg.lit ",\n ".toList,
    Seg.slot Conv.s,
    Seg.lit ",\n \"stationPassword\": \"".toList,
    Seg.slot Conv.s,
    Seg.lit "\",\n \"requireAuthentication\": ".toList,
    Seg.slot Conv.s,
    Seg.lit ",\n \"authenticationUsername\": \"".toList,
    Seg.slot Conv.s,
    Seg.lit "\",\n \"authenticationPassword\": \"".toList,
    Seg.slot Conv.s,
    Seg.lit "\",\n \"sampleInterval\": ".toList,
    Seg.slot Conv.d,
    Seg.lit ",\n \"publishURL\": \"".toList,
    Seg.slot Conv.s,
    Seg.lit "\",\n \"publishingUsername\": \"".toList,
    Seg.slot Conv.s,
    Seg.lit "\",\n \"publishingPassword\": \"".toList,
    Seg.slot Conv.s,
    Seg.lit "\",\n \"pollURL\": \"".toList,
    Seg.slot Conv.s,
    Seg.lit "\",\n \"publishingPolicy\":\x7b\"Push\": ".toList,
    Seg.slot Conv.s,
    Seg.lit ", \"Poll\": ".toList,
    Seg.slot Conv.s,
    Seg.lit "\x7d,\n \"stationHostname\": \"".toList,
    Seg.slot Conv.s,
    Seg.lit "\",\n ".toList,
    Seg.slot Conv.s,
    Seg.lit ",\n \"useNTP\": ".toList,
    Seg.slot Conv.s,
    Seg.lit ",\n \"NTPOffset\": ".toList,
    Seg.slot Conv.d,
    Seg.lit ",\n \"NTPPoolURL\": \"".toList,
    Seg.slot Conv.s,
    Seg.lit "\",\n \"serverPort\": ".toList,
    Seg.slot Conv.d,
    Seg.lit "\n\x7d\n".toList ]

/-- The pieces of `STATUS_HTML`. -/
def statusSegs : List Seg :=
  [ Seg.lit "<table>\n <tr>\n   <td>Up-time:</td>\n   <td>".toList,
    Seg.slot Conv.d,
    Seg.lit " days ".toList,
    Seg.slot Conv.d,
    Seg.lit " hours ".toList,
    Seg.slot Conv.d,
    Seg.lit " minutes ".toList,
    Seg.slot Conv.d,
    Seg.lit " seconds</td>\n <tr>\n <tr>\n   <td>System time:</td>\n   <td>".toList,
    Seg.slot Conv.s,
    Seg.lit "</td>\n <tr>\n <tr>\n   <td>Last measurment:</td>\n   <td>".toList,
    Seg.slot Conv.s,
    Seg.lit "</td>\n <tr>\n <tr>\n   <td>Node name:</td>\n   <td>".toList,
    Seg.slot Conv.s,
    Seg.lit "</td>\n <tr>\n <tr>\n   <td>IP address:</td>\n   <td>".toList,
    Seg.slot Conv.s,
    Seg.lit "</td>\n <tr>\n <tr>\n   <td>Temperature:</td>\n   <td>".toList,
    Seg.slot Conv.f,
    Seg.lit " &#176;C</td>\n <tr>\n <tr>\n   <td>Humity</td>\n   <td>".toList,
    Seg.slot Conv.f,
    Seg.lit " &#37;</td>\n <tr>\n <tr>\n   <td>Air pressure:</td>\n   <td>".toList,
    Seg.slot Conv.f,
    Seg.lit " hPa</td>\n <tr>\n <tr>\n   <td>VOC</td>\n   <td>".toList,
    Seg.slot Conv.f,
    Seg.lit " k&#937;</td>\n <tr>\n</table>\n".toList ]

/-- The pieces of `SENSOR_HTML`. -/
def sensorSegs : List Seg :=
  [ Seg.lit "\x7b\"stationName\":\"".toList,
    Seg.slot Conv.s,
    Seg.lit "\", \"timestamp\":".toList,
    Seg.slot Conv.d,
    Seg.lit ", \"temperature\":".toList,
    Seg.slot Conv.f,
    Seg.lit ", \"humidity\":".toList,
    Seg.slot Conv.f,
    Seg.lit ", \"air-pressure\":".toList,
    Seg.slot Conv.f,
    Seg.lit ", \"voc\":".toList,
    Seg.slot Conv.f,
    Seg.lit ", \"resultCode\": ".toList,
    Seg.slot Conv.d,
    Seg.lit ", \"resultText\", \"".toList,
    Seg.slot Conv.s,
    Seg.lit "\"\x7d".toList ]


/-- The pieces `ps` occur in the text one after the other, in this order
and without overlap. -/
def ContainsInOrder : List (List Char) → List Char → Prop
  | [], _ => True
  | p :: ps, t => ∃ a b, t = a ++ (p ++ b) ∧ ContainsInOrder ps b

/-! ## Reading the settings template as a JSON skeleton -/

/-- What the settings template shows between its braces: an object opening
or closing, a key (a quoted name followed by a colon), or a conversion,
which is quoted when it stands alone between two double quotes. -/
inductive Item
  | objOpen
  | objClose
  | key (name : String)
  | slot (c : Conv) (quoted : Bool)
  deriving DecidableEq, Repr

/-- Where the scan of a template stands: in plain text, right after a `%`,
or inside a double-quoted string whose characters so far are `acc`
(latest first). -/
inductive ScanState
  | text
  | percent
  | str (acc : List Char)
  deriving DecidableEq, Repr

/-- The item a closed double-quoted string stands for: a quoted conversion
when its content is exactly `%s`, `%d` or `%f`, a key when a colon follows
it, nothing otherwise. -/
def closeString (content rest : List Char) : List Item :=
  match content with
  | [p, k] =>
    if p = '%' then
      match convOf k with
      | some cv => [Item.slot cv true]
      | none => if rest.head? = some ':' then [Item.key (String.mk content)] else []
    else if rest.head? = some ':' then [Item.key (String.mk content)] else []
  | _ => if rest.head? = some ':' then [Item.key (String.mk content)] else []

/-- One step of the scan in plain text: the next state and the items that
the character gives. -/
def textStep (c : Char) : ScanState × List Item :=
  if c = '\x7b' then (ScanState.text, [Item.objOpen])
  else if c = '\x7d' then (ScanState.text, [Item.objClose])
  else if c = '"' then (ScanState.str [], [])
  else if c = '%' then (ScanState.percent, [])
  else (ScanState.text, [])

/-- One step of the scan: the next state and the items given by the
character `c`, which is followed by `rest`. -/
def scanStep (st : ScanState) (c : Char) (rest : List Char) : ScanState × List Item :=
  match st with
  | ScanState.text => textStep c
  | ScanState.percent =>
    match convOf c with
    | some cv => (ScanState.text, [Item.slot cv false])
    | none => textStep c
  | ScanState.str acc =>
    if c = '"' then (ScanState.text, closeString acc.reverse rest)
    else (ScanState.str (c :: acc), [])

/-- The items of a template in the order they occur. -/
def scanItems : ScanState → List Char → List Item
  | _, [] => []
  | st, c :: rest => (scanStep st c rest).2 ++ scanItems (scanStep st c rest).1 rest

/-- The items of `JSON_SETTINGS`. -/
def settingsItems : List Item :=
  scanItems ScanState.text JSON_SETTINGS.toList

/-- Each conversion with the key that stands right before it, if any. -/
def slotTable : List Item → List (Option String × Conv × Bool)
  | Item.key k :: Item.slot c q :: rest => (some k, c, q) :: slotTable rest
  | Item.slot c q :: rest => (none, c, q) :: slotTable rest
  | _ :: rest => slotTable rest
  | [] => []

/-- The keys at nesting depth `want` (1 for the outermost object), where
`depth` is the depth at the start of the list. -/
def keysAtDepth (want : Nat) : Nat → List Item → List String
  | _, [] => []
  | depth, Item.objOpen :: rest => keysAtDepth want (depth + 1) rest
  | depth, Item.objClose :: rest => keysAtDepth want (depth - 1) rest
  | depth, Item.key k :: rest =>
    if depth = want then k :: keysAtDepth want depth rest else keysAtDepth want depth rest
  | depth, Item.slot _ _ :: rest => keysAtDepth want depth rest


/-! ## Reading the form of the set-up page -/

/-- An HTML start or end tag: its name as written and its attributes as
written (`readonly` without a value gets the empty value). -/
structure Tag where
  name : String
  attrs : List (String × String)
  deriving DecidableEq, Repr

/-- Where the scan of a page stands. The characters collected so far are
kept latest first. -/
inductive TagState
  | outside
  | tagName (acc : List Char)
  | inTag (name : String) (attrs : List (String × String))
  | attrName (name : String) (attrs : List (String × String)) (acc : List Char)
  | afterEq (name : String) (attrs : List (String × String)) (attr : String)
  | attrValue (name : String) (attrs : List (String × String)) (attr : String)
      (acc : List Char)
  deriving DecidableEq, Repr

/-- Blank characters inside a tag. -/
def isBlank (c : Char) : Bool :=
  c = ' ' || c = '\n' || c = '\t' || c = '\r'

/-- One step of the scan of a page: the next state and the tag that the
character completes, if any. -/
def tagStep (st : TagState) (c : Char) : TagState × Option Tag :=
  match st with
  | TagState.outside =>
    if c = '<' then (TagState.tagName [], none) else (TagState.outside, none)
  | TagState.tagName acc =>
    if c = '>' then (TagState.outside, some ⟨String.mk acc.reverse, []⟩)
    else if isBlank c then (TagState.inTag (String.mk acc.reverse) [], none)
    else (TagState.tagName (c :: acc), none)
  | TagState.inTag name attrs =>
    if c = '>' then (TagState.outside, some ⟨name, attrs.reverse⟩)
    else if isBlank c then (TagState.inTag name attrs, none)
    else (TagState.attrName name attrs [c], none)
  | TagState.attrName name attrs acc =>
    if c = '=' then (TagState.afterEq name attrs (String.mk acc.reverse), none)
    else if c = '>' then
      (TagState.outside, some ⟨name, ((String.mk acc.reverse, "") :: attrs).reverse⟩)
    else if isBlank c then (TagState.inTag name ((String.mk acc.reverse, "") :: attrs), none)
    else (TagState.attrName name attrs (c :: acc), none)
  | TagState.afterEq name attrs attr =>
    if c = '"' then (TagState.attrValue name attrs attr [], none)
    else if c = '>' then (TagState.outside, some ⟨name, ((attr, "") :: attrs).reverse⟩)
    else (TagState.inTag name ((attr, "") :: attrs), none)
  | TagState.attrValue name attrs attr acc =>
    if c = '"' then (TagState.inTag name ((attr, String.mk acc.reverse) :: attrs), none)
    else (TagState.attrValue name attrs attr (c :: acc), none)

/-- The tags of a page in the order they occur. -/
def scanTags : TagState → List Char → List Tag
  | _, [] => []
  | st, c :: rest =>
    match (tagStep st c).2 with
    | some t => t :: scanTags (tagStep st c).1 rest
    | none => scanTags (tagStep st c).1 rest

/-- The tags of `INDEX_HTML`. -/
def indexTags : List Tag :=
  scanTags TagState.outside INDEX_HTML.toList

/-- The value of an attribute of a tag. -/
def Tag.attr (t : Tag) (a : String) : Option String :=
  (t.attrs.find? (fun p => p.1 == a)).map Prod.snd

/-- `document.getElementById(key)`: the first element whose `id` is `key`. -/
def getElementById (tags : List Tag) (key : String) : Option Tag :=
  tags.find? (fun t => t.attr "id" == some key)

/-- `document.getElementsByName(key)`: the elements whose `name` is `key`. -/
def getElementsByName (tags : List Tag) (key : String) : List Tag :=
  tags.filter (fun t => t.attr "name" == some key)

/-- The DOM `type` property of a form element as far as `setFormData`
looks at it: `select-one` for a `select` without `multiple`, the `type`
attribute for an `input`. -/
def Tag.domType (t : Tag) : String :=
  if t.name == "select" then
    (if t.attr "multiple" == none then "select-one" else "select-multiple")
  else (t.attr "type").getD "text"

/-- What `setFormData` does with one key of the settings object. -/
inductive Target
  | checkedByValue (values : List String)
  | options
  | checked
  | value
  deriving DecidableEq, Repr

/-- The branch `setFormData` takes for `key`: without an element of that
id it sets `checked` on every element of that name from `obj[key][value]`;
with one, it fills the options of a `select-one`, sets `checked` of a
checkbox, and sets `value` otherwise. -/
def setFormDataTarget (tags : List Tag) (key : String) : Target :=
  match getElementById tags key with
  | none =>
    Target.checkedByValue ((getElementsByName tags key).map (fun t => (t.attr "value").getD ""))
  | some element =>
    if element.domType == "select-one" then Target.options
    else if element.domType == "checkbox" then Target.checked
    else Target.value


/-! ## Well-formed JSON text (RFC 8259) -/

/-- Outcome of recognising a piece of JSON: the rest of the text after it,
a syntax error, or not enough fuel. -/
inductive JResult
  | ok (rest : List Char)
  | bad
  | outOfFuel
  deriving DecidableEq, Repr

/-- JSON white space. -/
def isJsonWs (c : Char) : Bool :=
  c = ' ' || c = '\n' || c = '\t' || c = '\r'

/-- Drop leading white space. -/
def skipWs : List Char → List Char
  | [] => []
  | c :: rest => if isJsonWs c then skipWs rest else c :: rest

/-- A decimal digit. -/
def isDigit (c : Char) : Bool :=
  '0' ≤ c && c ≤ '9'

/-- A hexadecimal digit. -/
def isHexDigit (c : Char) : Bool :=
  isDigit c || ('a' ≤ c && c ≤ 'f') || ('A' ≤ c && c ≤ 'F')

/-- The characters that may follow a backslash, `u` apart. -/
def isSimpleEscape (c : Char) : Bool :=
  c = '"' || c = '\\' || c = '/' || c = 'b' || c = 'f' || c = 'n' || c = 'r' || c = 't'

/-- Where the recogniser stands inside a string: plain text, right after a
backslash, or with `n` hexadecimal digits of a `\u` escape to come. -/
inductive StrState
  | plain
  | escape
  | hex (n : Nat)
  deriving DecidableEq, Repr

/-- The rest of the text after a JSON string whose opening quote has been
read; control characters must be escaped. -/
def jsonString : StrState → List Char → JResult
  | _, [] => JResult.bad
  | StrState.plain, c :: rest =>
    if c = '"' then JResult.ok rest
    else if c = '\\' then jsonString StrState.escape rest
    else if c.toNat < 32 then JResult.bad
    else jsonString StrState.plain rest
  | StrState.escape, c :: rest =>
    if c = 'u' then jsonString (StrState.hex 4) rest
    else if isSimpleEscape c then jsonString StrState.plain rest
    else JResult.bad
  | StrState.hex n, c :: rest =>
    if isHexDigit c then
      (if n ≤ 1 then jsonString StrState.plain rest else jsonString (StrState.hex (n - 1)) rest)
    else JResult.bad

/-- Drop leading decimal digits. -/
def dropDigits : List Char → List Char
  | [] => []
  | c :: rest => if isDigit c then dropDigits rest else c :: rest

/-- Drop at least one decimal digit. -/
def digits1 : List Char → Option (List Char)
  | [] => none
  | c :: rest => if isDigit c then some (dropDigits rest) else none

/-- The rest of the text after the integer part of a number: `0`, or a
non-zero digit and more digits. -/
def jsonInt : List Char → Option (List Char)
  | [] => none
  | c :: rest => if c = '0' then some rest else digits1 (c :: rest)

/-- The rest of the text after an optional fraction. -/
def jsonFrac : List Char → Option (List Char)
  | [] => some []
  | c :: rest => if c = '.' then digits1 rest else some (c :: rest)

/-- The rest of the text after an optional sign. -/
def dropSign : List Char → List Char
  | [] => []
  | c :: rest => if c = '+' || c = '-' then rest else c :: rest

/-- The rest of the text after an optional exponent. -/
def jsonExp : List Char → Option (List Char)
  | [] => some []
  | c :: rest => if c = 'e' || c = 'E' then digits1 (dropSign rest) else some (c :: rest)

/-- The rest of the text after a JSON number. -/
def jsonNumber : List Char → JResult
  | [] => JResult.bad
  | c :: rest =>
    match (jsonInt (if c = '-' then rest else c :: rest)).bind jsonFrac |>.bind jsonExp with
    | some r => JResult.ok r
    | none => JResult.bad

/-- The rest of the text after the word `w`, if the text starts with it. -/
def jsonWord (w : String) (cs : List Char) : Option (List Char) :=
  if w.toList.isPrefixOf cs then some (cs.drop w.length) else none

/-- What the recogniser reads next: a value, the members of an object
after its opening brace, or the elements of an array after its opening
bracket. -/
inductive JMode
  | value
  | members
  | elements
  deriving DecidableEq, Repr

/-- The rest of the text after a JSON value (or after the members of an
object up to its closing brace, or the elements of an array up to its
closing bracket). Every call reads at least one character, so fuel above
the length of the text is never used up. -/
def jsonParse : Nat → JMode → List Char → JResult
  | 0, _, _ => JResult.outOfFuel
  | fuel + 1, JMode.value, cs =>
    match skipWs cs with
    | [] => JResult.bad
    | c :: rest =>
      if c = '\x7b' then
        match skipWs rest with
        | [] => JResult.bad
        | d :: rest' =>
          if d = '\x7d' then JResult.ok rest' else jsonParse fuel JMode.members (d :: rest')
      else if c = '[' then
        match skipWs rest with
        | [] => JResult.bad
        | d :: rest' =>
          if d = ']' then JResult.ok rest' else jsonParse fuel JMode.elements (d :: rest')
      else if c = '"' then jsonString StrState.plain rest
      else
        match jsonWord "true" (c :: rest) with
        | some r => JResult.ok r
        | none =>
          match jsonWord "false" (c :: rest) with
          | some r => JResult.ok r
          | none =>
            match jsonWord "null" (c :: rest) with
            | some r => JResult.ok r
            | none => jsonNumber (c :: rest)
  | fuel + 1, JMode.members, cs =>
    match skipWs cs with
    | [] => JResult.bad
    | c :: rest =>
      if c = '"' then
        match jsonString StrState.plain rest with
        | JResult.ok r1 =>
          match skipWs r1 with
          | [] => JResult.bad
          | d :: r2 =>
            if d = ':' then
              match jsonParse fuel JMode.value r2 with
              | JResult.ok r3 =>
                match skipWs r3 with
                | [] => JResult.bad
                | e :: r4 =>
                  if e = ',' then jsonParse fuel JMode.members r4
                  else if e = '\x7d' then JResult.ok r4
                  else JResult.bad
              | other => other
            else JResult.bad
        | other => other
      else JResult.bad
  | fuel + 1, JMode.elements, cs =>
    match jsonParse fuel JMode.value cs with
    | JResult.ok r3 =>
      match skipWs r3 with
      | [] => JResult.bad
      | e :: r4 =>
        if e = ',' then jsonParse fuel JMode.elements r4
        else if e = ']' then JResult.ok r4
        else JResult.bad
    | other => other

/-- The verdict on a whole text: `ok []` when it is one JSON value with
nothing but white space around it. -/
def jsonText (text : List Char) : JResult :=
  match jsonParse (text.length + 1) JMode.value text with
  | JResult.ok rest => if skipWs rest = [] then JResult.ok [] else JResult.bad
  | other => other

/-- The text is a well-formed JSON object. -/
def isJsonObject (text : List Char) : Bool :=
  (skipWs text).head? = some '\x7b' && jsonText text = JResult.ok []

/-- The text occurs in the template. -/
def occursIn (piece : String) (template : String) : Bool :=
  template.toList.tails.any (fun t => piece.toList.isPrefixOf t)

/-- A telemetry reading of the failing input: station "NodeMCU", time stamp
1700000000, readings 21.5, 40, 1013.25 and 12.3 as `%f` prints them, result
code 0 and result text "OK". -/
def sampleSensorArgs : List Arg :=
  [ Arg.str "NodeMCU", Arg.int 1700000000, Arg.flt "21.500000", Arg.flt "40.000000",
    Arg.flt "1013.250000", Arg.flt "12.300000", Arg.int 0, Arg.str "OK" ]


/-! ## Properties of the record and the store budget -/

/-- The members of `struct _settings` add up to 387 bytes, three of them are
`int`s. -/
theorem settingsDecl_sizes : packedSize settingsDecl = 387 ∧ intCount settingsDecl = 3 := by
  decide

/-- With 4-byte alignment the image of `struct _settings` is 392 bytes, which
is the packed size plus the padding of `xtensaPad`. -/
theorem sizeof_settings :
    sizeofWith 4 settingsDecl = 392 ∧ imageSizeWith xtensaPad 0 settingsDecl = 392 := by
  decide

/-- C1: `factoryDefaults` has access-point mode on with SSID "ESP8266" and
IP bytes 192,168,4,1, station mode off, sample interval 10, publishing
policy "Poll", NTP on with the non-empty pool URL "nl.pool.ntp.org", host
name "NodeMCU" and server port 80. -/
theorem factoryDefaults_values :
    factoryDefaults.accessPointMode = true ∧
    factoryDefaults.accessPointSSID = "ESP8266" ∧
    factoryDefaults.accessPointIP = [192, 168, 4, 1] ∧
    factoryDefaults.stationMode = false ∧
    factoryDefaults.sensorSampleInterval = 10 ∧
    factoryDefaults.publishingPolicy = "Poll" ∧
    factoryDefaults.useNTP = true ∧
    factoryDefaults.NTPPoolURL = "nl.pool.ntp.org" ∧
    factoryDefaults.NTPPoolURL ≠ "" ∧
    factoryDefaults.hostName = "NodeMCU" ∧
    factoryDefaults.serverPort = 80 := by
  refine ⟨rfl, rfl, rfl, rfl, rfl, rfl, rfl, rfl, ?_, rfl, rfl⟩
  decide

/-- C4: whatever padding of at most 3 bytes is put before each `int` member
and at the end of `struct _settings`, its byte image plus the one sentinel
byte fits in the `ALLOCATED_EEPROM = 1024` bytes of the store. -/
theorem settings_image_fits (pad : Nat → Nat) (tailPad : Nat)
    (hpad : ∀ i, pad i ≤ 3) (htail : tailPad ≤ 3) :
    ALLOCATED_EEPROM = 1024 ∧
      imageSizeWith pad tailPad settingsDecl + 1 ≤ ALLOCATED_EEPROM := by
  have h0 := hpad 0
  have h1 := hpad 1
  have h2 := hpad 2
  have hs := settingsDecl_sizes
  refine ⟨rfl, ?_⟩
  simp only [imageSizeWith, hs.1, hs.2, ALLOCATED_EEPROM]
  simp only [List.range_succ, List.range_zero, List.nil_append, List.cons_append,
    List.map_cons, List.map_nil, List.sum_cons, List.sum_nil]
  omega

/-- The budget of C4 at the padding the ESP8266 really uses: 392 bytes of
image and one sentinel byte. -/
theorem settings_image_fits_witness :
    (∀ i, xtensaPad i ≤ 3) ∧ 0 ≤ 3 ∧ ALLOCATED_EEPROM = 1024 ∧
      imageSizeWith xtensaPad 0 settingsDecl + 1 ≤ ALLOCATED_EEPROM :=
  have hp : ∀ i, xtensaPad i ≤ 3 := by
    intro i
    unfold xtensaPad
    split_ifs <;> omega
  ⟨hp, by decide, settings_image_fits xtensaPad 0 hp (by decide)⟩

/-- C6: the factory default record satisfies the record invariant. Every
text member is strictly shorter than its declared width, the declared widths
are the documented bounds plus one terminator byte, `publishingPolicy` is
"Push" or "Poll", `accessPointChannel` is below 14 = `CH_COUNT` = the number
of entries of `channels`, `accessPointIP` has exactly 4 bytes,
`sensorSampleInterval` is positive and `serverPort` lies in 0..65535. -/
theorem factoryDefaults_invariant :
    (factoryDefaults.textFields.all (fun p => decide (p.2.length < capacityOf p.1))) = true ∧
    factoryDefaults.textFields.map Prod.fst = textCapacities.map Prod.fst ∧
    textCapacities =
      [ ("accessPointSSID", 19 + 1), ("accessPointPassword", 19 + 1),
        ("stationSSID", 49 + 1), ("stationAccessPointPassword", 19 + 1),
        ("stationUsername", 19 + 1), ("stationPassword", 19 + 1),
        ("publishingPolicy", 5 + 1), ("publishingURL", 99 + 1),
        ("publishingUsername", 19 + 1), ("publishingPassword", 19 + 1),
        ("NTPPoolURL", 49 + 1), ("hostName", 19 + 1) ] ∧
    (factoryDefaults.publishingPolicy = "Push" ∨ factoryDefaults.publishingPolicy = "Poll") ∧
    factoryDefaults.accessPointChannel < 14 ∧ CH_COUNT = 14 ∧ channels.length = 14 ∧
    factoryDefaults.accessPointIP.length = 4 ∧ capacityOf "accessPointIP" = 4 ∧
    0 < factoryDefaults.sensorSampleInterval ∧
    0 ≤ factoryDefaults.serverPort ∧ factoryDefaults.serverPort ≤ 65535 := by
  decide

/-- C8: the version marker `NON_FACTORY` is 15, fits in one byte, differs
from the erased byte 0xFF and from the zero byte 0x00, and the guard of
`load()` rejects both blank bytes while accepting the marker itself. -/
theorem non_factory_not_blank :
    NON_FACTORY = 15 ∧ NON_FACTORY < 256 ∧ NON_FACTORY ≠ 0xFF ∧ NON_FACTORY ≠ 0x00 ∧
    sentinelIsCurrent 0xFF = false ∧ sentinelIsCurrent 0x00 = false ∧
    sentinelIsCurrent NON_FACTORY = true := by
  decide

/-! ## Properties of the templates -/

/-- Parsing `JSON_SETTINGS` gives `settingsSegs`. -/
theorem parse_JSON_SETTINGS : parseFormat JSON_SETTINGS.toList = settingsSegs := by
  decide!

/-- Parsing `STATUS_HTML` gives `statusSegs`. -/
theorem parse_STATUS_HTML : parseFormat STATUS_HTML.toList = statusSegs := by
  decide!

/-- Parsing `SENSOR_HTML` gives `sensorSegs`. -/
theorem parse_SENSOR_HTML : parseFormat SENSOR_HTML.toList = sensorSegs := by
  decide!

/-- `%d` prints a non-negative `int` like the natural number it is. -/
theorem toString_natCast (n : Nat) : toString ((n : Nat) : Int) = toString n :=
  rfl

/-- C7: for every seconds-since-boot counter `s` the decomposition has
hours below 24, minutes and seconds below 60 and adds up to `s` again;
`STATUS_HTML` filled with it starts with the up-time row reading
"<days> days <hours> hours <minutes> minutes <seconds> seconds", whatever
the other eight arguments are; and for `s = 90061` that text is
"1 days 1 hours 1 minutes 1 seconds". -/
theorem status_uptime (s : Nat) (sysTime lastTime node ip temp hum pres voc : String) :
    (uptimeOf s).hours < 24 ∧ (uptimeOf s).minutes < 60 ∧ (uptimeOf s).seconds < 60 ∧
    (uptimeOf s).days * 86400 + (uptimeOf s).hours * 3600 + (uptimeOf s).minutes * 60
      + (uptimeOf s).seconds = s ∧
    (∃ post,
      sprintf STATUS_HTML
          (statusArgs (uptimeOf s) sysTime lastTime node ip temp hum pres voc) =
        some ("<table>\n <tr>\n   <td>Up-time:</td>\n   <td>".toList ++
          uptimeText (uptimeOf s) ++ post)) ∧
    uptimeText (uptimeOf 90061) = "1 days 1 hours 1 minutes 1 seconds".toList := by
  refine ⟨?_, ?_, ?_, ?_, ?_, by decide!⟩
  · simp only [uptimeOf]
    omega
  · simp only [uptimeOf]
    omega
  · simp only [uptimeOf]
    omega
  · simp only [uptimeOf]
    omega
  · unfold sprintf
    rw [parse_STATUS_HTML]
    simp [statusSegs, statusArgs, fill, Arg.conv, Arg.text, uptimeText, toString_natCast]

/-- A text that contains `ps` still contains them after more text is put in
front. -/
theorem ContainsInOrder.skip {ps : List (List Char)} {t : List Char} (a : List Char)
    (h : ContainsInOrder ps t) : ContainsInOrder ps (a ++ t) := by
  cases ps with
  | nil => trivial
  | cons p ps =>
    obtain ⟨a', b, ht, hb⟩ := h
    exact ⟨a ++ a', b, by rw [ht, List.append_assoc], hb⟩

/-- A text that starts with `p` and then contains `ps` contains `p :: ps`. -/
theorem ContainsInOrder.here {ps : List (List Char)} {t : List Char} (p : List Char)
    (h : ContainsInOrder ps t) : ContainsInOrder (p :: ps) (p ++ t) :=
  ⟨[], t, rfl, h⟩

/-- The settings payload of the factory defaults, with the two raw
fragments `frag1` and `frag2` in their places. -/
theorem renderSettings_factoryDefaults (frag1 frag2 : String) :
    renderSettings factoryDefaults frag1 frag2 =
      some ("\x7b\n \"accessPointMode\": true,\n \"accessPointSSID\": \"ESP8266\",\n \"accessPointPassword\": \"ESP8266Test\",\n \"accessPointIPAddress\": \"192.168.4.1\",\n \"stationMode\": false,\n ".toList ++
        (frag1.toList ++
        (",\n \"stationPassword\": \"\",\n \"requireAuthentication\": true,\n \"authenticationUsername\": \"admin\",\n \"authenticationPassword\": \"admin\",\n \"sampleInterval\": 10,\n \"publishURL\": \"\",\n \"publishingUsername\": \"\",\n \"publishingPassword\": \"\",\n \"pollURL\": \"/sensor/read\",\n \"publishingPolicy\":\x7b\"Push\": false, \"Poll\": true\x7d,\n \"stationHostname\": \"NodeMCU\",\n ".toList ++
        (frag2.toList ++
        ",\n \"useNTP\": true,\n \"NTPOffset\": 3600,\n \"NTPPoolURL\": \"nl.pool.ntp.org\",\n \"serverPort\": 80\n\x7d\n".toList)))) := by
  have h10 : toString (10 : Int) = "10" := by decide!
  have h3600 : toString (3600 : Int) = "3600" := by decide!
  have h80 : toString (80 : Int) = "80" := by decide!
  have hip : dottedQuad [192, 168, 4, 1] = "192.168.4.1" := by decide!
  have hpush : (("Poll" : String) == "Push") = false := by decide
  have hpoll : (("Poll" : String) == "Poll") = true := by decide
  unfold renderSettings sprintf
  rw [parse_JSON_SETTINGS]
  simp [settingsSegs, settingsArgs, fill, Arg.conv, Arg.text, factoryDefaults, boolWord,
    pollURL, h10, h3600, h80, hip, hpush, hpoll]

/-- C3: the settings payload of the factory defaults contains, in this order,
`"accessPointMode": true`, `"stationMode": false`, `"sampleInterval": 10`,
`"publishingPolicy":{"Push": false, "Poll": true}` and `"serverPort": 80`,
whatever the two raw fragments are. -/
theorem defaults_payload_shows (frag1 frag2 : String) :
    ∃ out, renderSettings factoryDefaults frag1 frag2 = some out ∧
      ContainsInOrder
        [ "\"accessPointMode\": true".toList,
          "\"stationMode\": false".toList,
          "\"sampleInterval\": 10".toList,
          "\"publishingPolicy\":\x7b\"Push\": false, \"Poll\": true\x7d".toList,
          "\"serverPort\": 80".toList ] out := by
  refine ⟨_, renderSettings_factoryDefaults frag1 frag2, ?_⟩
  have e0 : "\x7b\n \"accessPointMode\": true,\n \"accessPointSSID\": \"ESP8266\",\n \"accessPointPassword\": \"ESP8266Test\",\n \"accessPointIPAddress\": \"192.168.4.1\",\n \"stationMode\": false,\n ".toList
      = "\x7b\n ".toList ++ ("\"accessPointMode\": true".toList ++
        (",\n \"accessPointSSID\": \"ESP8266\",\n \"accessPointPassword\": \"ESP8266Test\",\n \"accessPointIPAddress\": \"192.168.4.1\",\n ".toList ++
        ("\"stationMode\": false".toList ++ ",\n ".toList))) := by decide!
  have e1 : ",\n \"stationPassword\": \"\",\n \"requireAuthentication\": true,\n \"authenticationUsername\": \"admin\",\n \"authenticationPassword\": \"admin\",\n \"sampleInterval\": 10,\n \"publishURL\": \"\",\n \"publishingUsername\": \"\",\n \"publishingPassword\": \"\",\n \"pollURL\": \"/sensor/read\",\n \"publishingPolicy\":\x7b\"Push\": false, \"Poll\": true\x7d,\n \"stationHostname\": \"NodeMCU\",\n ".toList
      = ",\n \"stationPassword\": \"\",\n \"requireAuthentication\": true,\n \"authenticationUsername\": \"admin\",\n \"authenticationPassword\": \"admin\",\n ".toList ++
        ("\"sampleInterval\": 10".toList ++
        (",\n \"publishURL\": \"\",\n \"publishingUsername\": \"\",\n \"publishingPassword\": \"\",\n \"pollURL\": \"/sensor/read\",\n ".toList ++
        ("\"publishingPolicy\":\x7b\"Push\": false, \"Poll\": true\x7d".toList ++
          ",\n \"stationHostname\": \"NodeMCU\",\n ".toList))) := by decide!
  have e2 : ",\n \"useNTP\": true,\n \"NTPOffset\": 3600,\n \"NTPPoolURL\": \"nl.pool.ntp.org\",\n \"serverPort\": 80\n\x7d\n".toList
      = ",\n \"useNTP\": true,\n \"NTPOffset\": 3600,\n \"NTPPoolURL\": \"nl.pool.ntp.org\",\n ".toList ++
        ("\"serverPort\": 80".toList ++ "\n\x7d\n".toList) := by decide!
  rw [e0, e1, e2]
  simp only [List.append_assoc]
  refine ContainsInOrder.skip _ (ContainsInOrder.here _ (ContainsInOrder.skip _
    (ContainsInOrder.here _ (ContainsInOrder.skip _ (ContainsInOrder.skip _
    (ContainsInOrder.skip _ (ContainsInOrder.here _ (ContainsInOrder.skip _
    (ContainsInOrder.here _ (ContainsInOrder.skip _ (ContainsInOrder.skip _
    (ContainsInOrder.skip _ (ContainsInOrder.here _ ?_)))))))))))))
  trivial

/-- The number of characters of a string. -/
theorem toList_length (s : String) : s.toList.length = s.length :=
  rfl

/-- The word for a boolean has at most 5 characters. -/
theorem boolWord_length_le (b : Bool) : (boolWord b).toList.length ≤ 5 := by
  cases b <;> decide

/-- A natural number below `10 ^ e` prints with at most `e` digits. -/
theorem toString_nat_length_le (n e : Nat) (he : 0 < e) (h : n < 10 ^ e) :
    (toString n).toList.length ≤ e :=
  Nat.repr_length n e he h

/-- `%d` prints a 32-bit signed value with at most 11 characters. -/
theorem toString_int32_length_le (n : Int) (h : isInt32 n) :
    (toString n).toList.length ≤ 11 := by
  obtain ⟨hlo, hhi⟩ := h
  cases n with
  | ofNat m =>
    have hm : m < 10 ^ 10 := by
      have : (m : Int) ≤ 2147483647 := hhi
      omega
    have := toString_nat_length_le m 10 (by decide) hm
    show (toString m).toList.length ≤ 11
    omega
  | negSucc m =>
    have hm : m + 1 < 10 ^ 10 := by
      have : -2147483648 ≤ -((m : Int) + 1) := by
        rw [← Int.negSucc_eq]
        exact hlo
      omega
    have := toString_nat_length_le (m + 1) 10 (by decide) hm
    show ("-" ++ toString (m + 1)).toList.length ≤ 11
    simp only [String.toList, String.data_append, List.length_append] at this ⊢
    simp only [List.length_singleton] at this ⊢
    omega

/-- Four bytes print as a dotted quad of at most 15 characters, so the IP
of every record with a 4-byte address meets the bound of
`_settings.Bounded`. -/
theorem dottedQuad_length_le (ip : List Nat) (hlen : ip.length = 4)
    (hb : ∀ b ∈ ip, b < 256) : (dottedQuad ip).toList.length ≤ 15 := by
  match ip, hlen with
  | [a, b, c, d], _ =>
    have ha := toString_nat_length_le a 3 (by decide) (by have := hb a (by simp); omega)
    have hb' := toString_nat_length_le b 3 (by decide) (by have := hb b (by simp); omega)
    have hc := toString_nat_length_le c 3 (by decide) (by have := hb c (by simp); omega)
    have hd := toString_nat_length_le d 3 (by decide) (by have := hb d (by simp); omega)
    have h1 : (".": String).data.length = 1 := by decide
    simp only [dottedQuad, List.map_cons, List.map_nil, String.intercalate,
      String.intercalate.go, String.toList, String.data_append, List.length_append] at *
    omega

/-- The declared widths of the text members. -/
theorem capacityOf_text :
    capacityOf "accessPointSSID" = 20 ∧ capacityOf "accessPointPassword" = 20 ∧
    capacityOf "stationSSID" = 50 ∧ capacityOf "stationAccessPointPassword" = 20 ∧
    capacityOf "stationUsername" = 20 ∧ capacityOf "stationPassword" = 20 ∧
    capacityOf "publishingPolicy" = 6 ∧ capacityOf "publishingURL" = 100 ∧
    capacityOf "publishingUsername" = 20 ∧ capacityOf "publishingPassword" = 20 ∧
    capacityOf "NTPPoolURL" = 50 ∧ capacityOf "hostName" = 20 := by
  decide

/-- The text members of a bounded record that the settings payload shows
are within their documented bounds. -/
theorem _settings.Bounded.lengths {r : _settings} (h : r.Bounded) :
    r.accessPointSSID.length ≤ 19 ∧ r.accessPointPassword.length ≤ 19 ∧
    r.stationAccessPointPassword.length ≤ 19 ∧ r.stationUsername.length ≤ 19 ∧
    r.stationPassword.length ≤ 19 ∧ r.publishingURL.length ≤ 99 ∧
    r.publishingUsername.length ≤ 19 ∧ r.publishingPassword.length ≤ 19 ∧
    r.NTPPoolURL.length ≤ 49 ∧ r.hostName.length ≤ 19 := by
  obtain ⟨c1, c2, c3, c4, c5, c6, c7, c8, c9, c10, c11, c12⟩ := capacityOf_text
  have t := h.text
  have h1 := t ("accessPointSSID", r.accessPointSSID) (by simp [_settings.textFields])
  have h2 := t ("accessPointPassword", r.accessPointPassword) (by simp [_settings.textFields])
  have h4 := t ("stationAccessPointPassword", r.stationAccessPointPassword)
    (by simp [_settings.textFields])
  have h5 := t ("stationUsername", r.stationUsername) (by simp [_settings.textFields])
  have h6 := t ("stationPassword", r.stationPassword) (by simp [_settings.textFields])
  have h8 := t ("publishingURL", r.publishingURL) (by simp [_settings.textFields])
  have h9 := t ("publishingUsername", r.publishingUsername) (by simp [_settings.textFields])
  have h10 := t ("publishingPassword", r.publishingPassword) (by simp [_settings.textFields])
  have h11 := t ("NTPPoolURL", r.NTPPoolURL) (by simp [_settings.textFields])
  have h12 := t ("hostName", r.hostName) (by simp [_settings.textFields])
  simp only [fieldWithin, c1, c2, c4, c5, c6, c8, c9, c10, c11, c12] at h1 h2 h4 h5 h6 h8 h9 h10 h11 h12
  omega

/-- C9: for a bounded record and two raw fragments of at most 10000
characters together, `JSON_SETTINGS` is filled successfully and the text is
shorter than `HTML_PAGE_BUFFER_SIZE = 12000`, so it fits in `html[]` with
its terminator. -/
theorem renderSettings_fits (r : _settings) (frag1 frag2 : String)
    (hr : r.Bounded) (hfrag : frag1.length + frag2.length ≤ 10000) :
    ∃ out, renderSettings r frag1 frag2 = some out ∧
      out.length < HTML_PAGE_BUFFER_SIZE := by
  obtain ⟨l1, l2, l4, l5, l6, l8, l9, l10, l11, l12⟩ := hr.lengths
  have b1 := boolWord_length_le r.accessPointMode
  have b2 := boolWord_length_le r.stationMode
  have b3 := boolWord_length_le r.stationRequireAuthentication
  have b4 := boolWord_length_le (r.publishingPolicy == "Push")
  have b5 := boolWord_length_le (r.publishingPolicy == "Poll")
  have b6 := boolWord_length_le r.useNTP
  have i1 := toString_int32_length_le _ hr.sensorSampleInterval
  have i2 := toString_int32_length_le _ hr.NTPOffset
  have i3 := toString_int32_length_le _ hr.serverPort
  have q := hr.ip
  have hp : pollURL.toList.length = 12 := by decide
  unfold renderSettings sprintf
  rw [parse_JSON_SETTINGS]
  simp only [settingsSegs, settingsArgs, fill, Arg.conv, Arg.text, if_true, Option.map_some']
  refine ⟨_, rfl, ?_⟩
  simp only [toList_length] at b1 b2 b3 b4 b5 b6 i1 i2 i3 hp
  simp only [String.toList, List.cons_append, List.singleton_append, List.nil_append,
    List.length_cons, List.length_nil, List.length_append, String.length_data,
    HTML_PAGE_BUFFER_SIZE]
  omega

/-- The factory defaults are a bounded record. -/
theorem factoryDefaults_bounded : factoryDefaults.Bounded where
  text := by
    intro p hp
    simp only [_settings.textFields, List.mem_cons, List.mem_singleton, List.mem_nil_iff,
      or_false] at hp
    rcases hp with rfl | rfl | rfl | rfl | rfl | rfl | rfl | rfl | rfl | rfl | rfl | rfl <;>
      (unfold fieldWithin; decide)
  serverPort := by unfold isInt32; decide
  sensorSampleInterval := by unfold isInt32; decide
  NTPOffset := by unfold isInt32; decide
  ip := by decide

/-- The bound of C9 at the factory defaults with two small fragments. -/
theorem renderSettings_fits_witness :
    factoryDefaults.Bounded ∧
    ("\"accessPointList\": []".length + "\"channelList\": []".length ≤ 10000) ∧
    ∃ out, renderSettings factoryDefaults "\"accessPointList\": []" "\"channelList\": []"
        = some out ∧ out.length < HTML_PAGE_BUFFER_SIZE :=
  ⟨factoryDefaults_bounded, by decide,
    renderSettings_fits factoryDefaults "\"accessPointList\": []" "\"channelList\": []"
      factoryDefaults_bounded (by decide)⟩

/-- C5: `JSON_SETTINGS` has exactly 23 conversions. Its keys and
conversions occur in this order: accessPointMode, accessPointSSID,
accessPointPassword, accessPointIPAddress, stationMode, the first raw
fragment (no key), stationPassword, requireAuthentication,
authenticationUsername, authenticationPassword, sampleInterval, publishURL,
publishingUsername, publishingPassword, pollURL, publishingPolicy with the
nested keys Push and Poll, stationHostname, the second raw fragment (no
key), useNTP, NTPOffset, NTPPoolURL, serverPort. The conversions of
sampleInterval, NTPOffset and serverPort are `%d`; those of the booleans
accessPointMode, stationMode, requireAuthentication, Push, Poll and useNTP
are unquoted `%s`; the two raw fragments are unquoted `%s` without a key;
every other `%s` stands between double quotes. -/
theorem settings_template_layout :
    (slotKinds (parseFormat JSON_SETTINGS.toList)).length = 23 ∧
    (slotTable settingsItems).map (fun e => e.2.1) =
      slotKinds (parseFormat JSON_SETTINGS.toList) ∧
    settingsItems =
      [ Item.objOpen,
        Item.key "accessPointMode", Item.slot Conv.s false,
        Item.key "accessPointSSID", Item.slot Conv.s true,
        Item.key "accessPointPassword", Item.slot Conv.s true,
        Item.key "accessPointIPAddress", Item.slot Conv.s true,
        Item.key "stationMode", Item.slot Conv.s false,
        Item.slot Conv.s false,
        Item.key "stationPassword", Item.slot Conv.s true,
        Item.key "requireAuthentication", Item.slot Conv.s false,
        Item.key "authenticationUsername", Item.slot Conv.s true,
        Item.key "authenticationPassword", Item.slot Conv.s true,
        Item.key "sampleInterval", Item.slot Conv.d false,
        Item.key "publishURL", Item.slot Conv.s true,
        Item.key "publishingUsername", Item.slot Conv.s true,
        Item.key "publishingPassword", Item.slot Conv.s true,
        Item.key "pollURL", Item.slot Conv.s true,
        Item.key "publishingPolicy",
        Item.objOpen,
        Item.key "Push", Item.slot Conv.s false,
        Item.key "Poll", Item.slot Conv.s false,
        Item.objClose,
        Item.key "stationHostname", Item.slot Conv.s true,
        Item.slot Conv.s false,
        Item.key "useNTP", Item.slot Conv.s false,
        Item.key "NTPOffset", Item.slot Conv.d false,
        Item.key "NTPPoolURL", Item.slot Conv.s true,
        Item.key "serverPort", Item.slot Conv.d false,
        Item.objClose ] ∧
    slotTable settingsItems =
      [ (some "accessPointMode", Conv.s, false),
        (some "accessPointSSID", Conv.s, true),
        (some "accessPointPassword", Conv.s, true),
        (some "accessPointIPAddress", Conv.s, true),
        (some "stationMode", Conv.s, false),
        (none, Conv.s, false),
        (some "stationPassword", Conv.s, true),
        (some "requireAuthentication", Conv.s, false),
        (some "authenticationUsername", Conv.s, true),
        (some "authenticationPassword", Conv.s, true),
        (some "sampleInterval", Conv.d, false),
        (some "publishURL", Conv.s, true),
        (some "publishingUsername", Conv.s, true),
        (some "publishingPassword", Conv.s, true),
        (some "pollURL", Conv.s, true),
        (some "Push", Conv.s, false),
        (some "Poll", Conv.s, false),
        (some "stationHostname", Conv.s, true),
        (none, Conv.s, false),
        (some "useNTP", Conv.s, false),
        (some "NTPOffset", Conv.d, false),
        (some "NTPPoolURL", Conv.s, true),
        (some "serverPort", Conv.d, false) ] := by
  decide!

/-- C10: each of the 20 top-level keys of `JSON_SETTINGS` other than
publishingPolicy is the id of an `input` element of `INDEX_HTML`; no element
has the id publishingPolicy, and the elements of that name are two radio
inputs with the values "Push" and "Poll", the nested keys of the template;
accessPointMode, stationMode, requireAuthentication and useNTP are checkbox
inputs whose name equals their id. So `setFormData` sets `checked` for the
four checkboxes, `checked` by value for the radio pair and `value` for the
fifteen others. -/
theorem settings_keys_resolve :
    keysAtDepth 1 0 settingsItems =
      [ "accessPointMode", "accessPointSSID", "accessPointPassword", "accessPointIPAddress",
        "stationMode", "stationPassword", "requireAuthentication", "authenticationUsername",
        "authenticationPassword", "sampleInterval", "publishURL", "publishingUsername",
        "publishingPassword", "pollURL", "publishingPolicy", "stationHostname", "useNTP",
        "NTPOffset", "NTPPoolURL", "serverPort" ] ∧
    (((keysAtDepth 1 0 settingsItems).filter (fun k => k != "publishingPolicy")).all
      (fun k => ((getElementById indexTags k).map (fun t => t.name)) == some "input")) = true ∧
    getElementById indexTags "publishingPolicy" = none ∧
    (getElementsByName indexTags "publishingPolicy").map
        (fun t => (t.name, t.attr "type", t.attr "value")) =
      [ ("input", some "radio", some "Push"), ("input", some "radio", some "Poll") ] ∧
    keysAtDepth 2 0 settingsItems = ["Push", "Poll"] ∧
    ["accessPointMode", "stationMode", "requireAuthentication", "useNTP"].map
        (fun k => (getElementById indexTags k).map
          (fun t => (t.name, t.attr "type", t.attr "name"))) =
      [ some ("input", some "checkbox", some "accessPointMode"),
        some ("input", some "checkbox", some "stationMode"),
        some ("input", some "checkbox", some "requireAuthentication"),
        some ("input", some "checkbox", some "useNTP") ] ∧
    (keysAtDepth 1 0 settingsItems).map (fun k => setFormDataTarget indexTags k) =
      [ Target.checked, Target.value, Target.value, Target.value, Target.checked,
        Target.value, Target.checked, Target.value, Target.value, Target.value,
        Target.value, Target.value, Target.value, Target.value,
        Target.checkedByValue ["Push", "Poll"], Target.value, Target.checked,
        Target.value, Target.value, Target.value ] := by
  decide!

/-- C2: evaluated at the reading `sampleSensorArgs`. `SENSOR_HTML` has a
comma, not a colon, between the key "resultText" and its value slot, and
the filled template is rejected as JSON (a syntax error, not a lack of
fuel): the text is `{..., "resultCode": 0, "resultText", "OK"}`. -/
theorem sensor_payload_malformed :
    occursIn "\"resultText\": \"%s\"" SENSOR_HTML = false ∧
    occursIn "\"resultText\", \"%s\"" SENSOR_HTML = true ∧
    sprintf SENSOR_HTML sampleSensorArgs =
      some "\x7b\"stationName\":\"NodeMCU\", \"timestamp\":1700000000, \"temperature\":21.500000, \"humidity\":40.000000, \"air-pressure\":1013.250000, \"voc\":12.300000, \"resultCode\": 0, \"resultText\", \"OK\"\x7d".toList ∧
    (sprintf SENSOR_HTML sampleSensorArgs).map jsonText = some JResult.bad ∧
    (sprintf SENSOR_HTML sampleSensorArgs).map isJsonObject = some false := by
  decide!

/-- The same reading with a colon after "resultText" is a well-formed JSON
object, and so is the settings payload of the factory defaults: the
recogniser accepts what the templates are meant to produce. -/
theorem jsonText_accepts :
    isJsonObject "\x7b\"stationName\":\"NodeMCU\", \"timestamp\":1700000000, \"temperature\":21.500000, \"humidity\":40.000000, \"air-pressure\":1013.250000, \"voc\":12.300000, \"resultCode\": 0, \"resultText\": \"OK\"\x7d".toList = true ∧
    (renderSettings factoryDefaults "\"accessPointList\": []" "\"channelList\": []").map
      isJsonObject = some true := by
  decide!

end ESP8266
